import Mathlib

/-!
Shallow embedding of the `swarmcloud` project initializer
(`src/commands/init.py`) together with the stub commands of
`src/main.py` / `src/commands/build.py`, and proofs of the spec's
testable properties about them.

The filesystem is modelled as a finite association list from absolute
paths (lists of name components, `[]` being the root) to entries
(directories, or files with content).  Every Python filesystem call the
initializer performs (`exists`, `iterdir`, `mkdir`, `touch`, `unlink`,
`open(..., "w")`, `shutil.rmtree`) is given an explicit executable
model; calls that can raise return the raising-time world together with
the raised exception, mirroring Python exception flow.  Write
permissions are modelled by a set of unwritable directories: creating
or deleting an entry inside an unwritable directory raises
`PermissionError`, exactly the error kind `validate_project_location`
translates.  Interactive `Confirm.ask` answers and the availability of
the GitPython collaborator are explicit boolean inputs.

`CloudProvider` and `ProjectTemplate` are `(str, Enum)` classes and
every caller in the repository — the CLI command (typer converts the
`--provider`/`--template` strings into the enums), every test, and the
constructor defaults — passes enum *members* into `ProjectInitializer`,
so the embedding types the `provider`/`template` fields as the enums.
This matters for `generate_config`: `yaml.safe_dump` (PyYAML's
`SafeDumper`) dispatches representers on the *exact* type of each
value, has no multi-representer for subclasses of `str`, and falls
through to `represent_undefined`, which raises `RepresenterError`; the
representer builds the whole node tree before anything is emitted, so
the opened `aiswarm.yaml` is left empty and the mapping is never
written.  The structured `Yaml` type (mappings keep insertion order,
matching `sort_keys=False`) therefore appears on disk only through the
`generate_config_value` the code builds, never as a written manifest.
The f-string `f"infrastructure/{self.provider}"` is modelled as the
member's string value ("aws", ...), the rendering of
`str.__format__` for str-mixin enums on the Python versions the
project targets (its scaffold pins `python:3.9-slim`; on Python 3.11+
the rendering changed to include the class name).  The `.git`
administrative area managed by `git.Repo.init` is outside the modelled
artifact tree (the spec's generated-file-tree likewise lists only
`.gitignore`).
-/

namespace SwarmCloud

/-- Absolute paths as component lists from the filesystem root (`[]`). -/
abbrev Path := List String

/-- Rendering of a `pathlib.Path` in messages (`str(self.project_path)`). -/
def pathStr (p : Path) : String := "/" ++ String.intercalate "/" p

/-- A structurally stored YAML-serializable value; mappings keep
insertion order (`sort_keys=False`).  `enumMember` stands for a
`(str, Enum)` member stored in the mapping: a subclass of `str` whose
exact type PyYAML's `SafeRepresenter` has no representer for; it
carries the member's `repr` (as named by `RepresenterError`) and its
string value. -/
inductive Yaml where
  | str (s : String)
  | nullVal
  | bool (b : Bool)
  | arr (xs : List Yaml)
  | map (entries : List (String × Yaml))
  | enumMember (pyRepr : String) (value : String)

/-- Content of a regular file. -/
inductive FileContent where
  | textData (s : String)
  | yamlData (v : Yaml)

/-- A filesystem entry: a directory or a file with content. -/
inductive EntryData where
  | dir
  | file (content : FileContent)

/-- The filesystem world: existing entries keyed by absolute path, plus
the set of directories in which entry creation/deletion is denied. -/
structure World where
  entries : List (Path × EntryData)
  unwritable : List Path

/-- First entry stored under key `p` (the observable filesystem state). -/
def findEntry (l : List (Path × EntryData)) (p : Path) : Option EntryData :=
  match l with
  | [] => none
  | e :: rest => if e.fst = p then some e.snd else findEntry rest p

/-- `Path.exists()`. -/
def entryExists (w : World) (p : Path) : Bool :=
  (findEntry w.entries p).isSome

/-- `Path.is_dir()`-like observation. -/
def isDir (w : World) (p : Path) : Bool :=
  match findEntry w.entries p with
  | some .dir => true
  | _ => false

/-- Whether `p` exists and is a regular file. -/
def isFile (w : World) (p : Path) : Bool :=
  match findEntry w.entries p with
  | some (.file _) => true
  | _ => false

/-- `any(p.iterdir())`: some entry is an immediate child of `p`. -/
def hasChildren (w : World) (p : Path) : Bool :=
  w.entries.any (fun e => decide (e.fst.length = p.length + 1) && decide (p <+: e.fst))

/-- Membership of a path in a path list (used for the unwritable set). -/
def memPath (l : List Path) (p : Path) : Bool :=
  l.any (fun q => decide (q = p))

/-- Exceptions raised by the initializer and the modelled library calls. -/
inductive PyError where
  | permissionError
  | osError (msg : String)
  | abort
  | projectExists (msg : String)
  | projectInit (msg : String)
  deriving DecidableEq

/-- `str(e)` for the exceptions above (`str(PermissionError())` and
`str(typer.Abort())` are both empty). -/
def pyStr : PyError → String
  | .permissionError => ""
  | .osError m => m
  | .abort => ""
  | .projectExists m => m
  | .projectInit m => m

/-- Outcome of a filesystem step: the world at return/raise time and the
raised exception, if any. -/
structure StepOut where
  w : World
  err : Option PyError

/-- Python statement sequencing: a raised exception skips the rest. -/
def StepOut.andThen (r : StepOut) (f : World → StepOut) : StepOut :=
  match r.err with
  | some _ => r
  | none => f r.w

/-- `Path.mkdir(exist_ok=True)` without `parents`: ok on an existing
directory, `FileExistsError` on an existing file, `FileNotFoundError`
when the parent directory is missing, `PermissionError` when the parent
is unwritable. -/
def mkdirAt (w : World) (p : Path) : StepOut :=
  match findEntry w.entries p with
  | some .dir => ⟨w, none⟩
  | some (.file _) => ⟨w, some (.osError ("FileExistsError: " ++ pathStr p))⟩
  | none =>
    if !p.isEmpty && !(isDir w p.dropLast) then
      ⟨w, some (.osError ("FileNotFoundError: " ++ pathStr p.dropLast))⟩
    else if memPath w.unwritable p.dropLast then
      ⟨w, some .permissionError⟩
    else
      ⟨{ w with entries := (p, .dir) :: w.entries }, none⟩

/-- All prefixes of a path, shortest first (the creation order of
`mkdir(parents=True)`). -/
def prefixesOf : Path → List Path
  | [] => [[]]
  | a :: as => [] :: (prefixesOf as).map (a :: ·)

/-- Create each path of a list in order, stopping at the first error. -/
def mkdirList (w : World) (ps : List Path) : StepOut :=
  match ps with
  | [] => ⟨w, none⟩
  | q :: rest => (mkdirAt w q).andThen (fun w' => mkdirList w' rest)

/-- `Path.mkdir(parents=True, exist_ok=True)`. -/
def mkdirParents (w : World) (p : Path) : StepOut :=
  mkdirList w (prefixesOf p)

/-- `Path.touch()`: on an existing entry only the timestamps change;
otherwise an empty file is created in the parent directory. -/
def touchAt (w : World) (p : Path) : StepOut :=
  if entryExists w p then ⟨w, none⟩
  else if !(isDir w p.dropLast) then
    ⟨w, some (.osError ("FileNotFoundError: " ++ pathStr p.dropLast))⟩
  else if memPath w.unwritable p.dropLast then
    ⟨w, some .permissionError⟩
  else
    ⟨{ w with entries := (p, .file (.textData "")) :: w.entries }, none⟩

/-- `Path.unlink()`. -/
def unlinkAt (w : World) (p : Path) : StepOut :=
  match findEntry w.entries p with
  | none => ⟨w, some (.osError ("FileNotFoundError: " ++ pathStr p))⟩
  | some .dir => ⟨w, some (.osError ("IsADirectoryError: " ++ pathStr p))⟩
  | some (.file _) =>
    if memPath w.unwritable p.dropLast then ⟨w, some .permissionError⟩
    else ⟨{ w with entries := w.entries.filter (fun e => !(decide (e.fst = p))) }, none⟩

/-- `open(p, "w")` followed by a full write: truncates an existing file,
creates a missing one, `IsADirectoryError` on a directory. -/
def writeFileAt (w : World) (p : Path) (c : FileContent) : StepOut :=
  match findEntry w.entries p with
  | some .dir => ⟨w, some (.osError ("IsADirectoryError: " ++ pathStr p))⟩
  | some (.file _) =>
    if memPath w.unwritable p then ⟨w, some .permissionError⟩
    else ⟨{ w with entries :=
      (p, .file c) :: w.entries.filter (fun e => !(decide (e.fst = p))) }, none⟩
  | none =>
    if !(isDir w p.dropLast) then
      ⟨w, some (.osError ("FileNotFoundError: " ++ pathStr p.dropLast))⟩
    else if memPath w.unwritable p.dropLast then ⟨w, some .permissionError⟩
    else ⟨{ w with entries :=
      (p, .file c) :: w.entries.filter (fun e => !(decide (e.fst = p))) }, none⟩

/-- `shutil.rmtree(p)`: removes `p` and everything below it; raises
`PermissionError` when `p`'s parent, `p` itself, or any directory below
`p` is unwritable (modelled atomically). -/
def rmtreeOp (w : World) (p : Path) : StepOut :=
  if w.unwritable.any (fun q => decide (p <+: q)) || memPath w.unwritable p.dropLast then
    ⟨w, some .permissionError⟩
  else
    ⟨{ w with entries := w.entries.filter (fun e => !(decide (p <+: e.fst))) }, none⟩

/-- The `CloudProvider(str, Enum)` class (`init.py`, lines 24-28). -/
inductive CloudProvider where
  | AWS
  | GCP
  | AZURE
  | LOCAL
  deriving DecidableEq

/-- The member's string value (`CloudProvider.AWS.value == "aws"`). -/
def CloudProvider.value : CloudProvider → String
  | .AWS => "aws"
  | .GCP => "gcp"
  | .AZURE => "azure"
  | .LOCAL => "local"

/-- `repr` of the member, as it appears in `RepresenterError`. -/
def CloudProvider.pyRepr : CloudProvider → String
  | .AWS => "<CloudProvider.AWS: \x27aws\x27>"
  | .GCP => "<CloudProvider.GCP: \x27gcp\x27>"
  | .AZURE => "<CloudProvider.AZURE: \x27azure\x27>"
  | .LOCAL => "<CloudProvider.LOCAL: \x27local\x27>"

/-- How `f"infrastructure/{self.provider}"` renders the member:
`str.__format__` of a str-mixin enum yields the value on the Python
versions the project targets (see the module docstring). -/
def CloudProvider.fmt (p : CloudProvider) : String := p.value

/-- The `ProjectTemplate(str, Enum)` class (`init.py`, lines 31-34). -/
inductive ProjectTemplate where
  | BASIC
  | DISTRIBUTED
  | MONITORING
  deriving DecidableEq

/-- The member's string value. -/
def ProjectTemplate.value : ProjectTemplate → String
  | .BASIC => "basic"
  | .DISTRIBUTED => "distributed"
  | .MONITORING => "monitoring"

/-- `repr` of the member, as it appears in `RepresenterError`. -/
def ProjectTemplate.pyRepr : ProjectTemplate → String
  | .BASIC => "<ProjectTemplate.BASIC: \x27basic\x27>"
  | .DISTRIBUTED => "<ProjectTemplate.DISTRIBUTED: \x27distributed\x27>"
  | .MONITORING => "<ProjectTemplate.MONITORING: \x27monitoring\x27>"

/-- The `ProjectInitializer` constructor state (`init.py`, lines 37-57):
one record per invocation.  `project_id` and `created_at` model the
freshly drawn `uuid.uuid4()` / `datetime.utcnow()` values; `provider`
and `template` are enum members, as passed by every caller in the
repository (the typer command, the tests, and the constructor
defaults). -/
structure ProjectInitializer where
  name : String
  base_path : Path
  registry : Option String
  provider : CloudProvider
  template : ProjectTemplate
  git_init : Bool
  force : Bool
  project_id : String
  created_at : String

/-- `self.project_path = path / name`. -/
def ProjectInitializer.project_path (s : ProjectInitializer) : Path :=
  s.base_path ++ [s.name]

/-- The marker entries of `is_swarm_project` (`init.py`, lines 61-65). -/
def indicators : List String := ["aiswarm.yaml", "agents", "infrastructure"]

/-- `ProjectInitializer.is_swarm_project` (`init.py`, lines 59-66):
`any((path / indicator).exists() for indicator in indicators)`. -/
def is_swarm_project (w : World) (p : Path) : Bool :=
  indicators.any (fun ind => entryExists w (p ++ [ind]))

/-- The `while current != current.parent` loop of
`find_parent_swarm_project`, structurally recursive on a fuel that
bounds the number of `parent` steps; the root (`[]`, its own parent)
exits the loop without being examined. -/
def find_parent_loop (w : World) : Nat → Path → Option Path
  | 0, _ => none
  | _ + 1, [] => none
  | fuel + 1, p =>
    if is_swarm_project w p then some p else find_parent_loop w fuel p.dropLast

/-- `ProjectInitializer.find_parent_swarm_project` (`init.py`,
lines 68-75): the loop needs exactly `p.length` steps to reach the
root, so that fuel is always sufficient. -/
def find_parent_swarm_project (w : World) (p : Path) : Option Path :=
  find_parent_loop w p.length p

/-- The body of the `try` block of `validate_project_location`
(`init.py`, lines 98-101): `mkdir(parents=True, exist_ok=True)`, then
create and immediately remove the throwaway `.write_test` file. -/
def probe_raw (s : ProjectInitializer) (w : World) : StepOut :=
  (mkdirParents w s.project_path).andThen (fun w1 =>
    (touchAt w1 (s.project_path ++ [".write_test"])).andThen (fun w2 =>
      unlinkAt w2 (s.project_path ++ [".write_test"])))

/-- The `try`/`except PermissionError` wrapper of the write probe
(`init.py`, lines 97-105): a permission failure becomes
`ProjectInitError`, every other exception propagates unchanged. -/
def write_probe (s : ProjectInitializer) (w : World) : StepOut :=
  match (probe_raw s w).err with
  | some .permissionError =>
    ⟨(probe_raw s w).w,
      some (.projectInit ("No write permission in directory " ++ pathStr s.project_path))⟩
  | _ => probe_raw s w

/-- `ProjectInitializer.validate_project_location` (`init.py`,
lines 77-105).  The Python condition
`self.project_path.exists() and any(self.project_path.iterdir())` is
evaluated first: `iterdir()` on a regular file raises
`NotADirectoryError` before any other check runs, and the overwrite
prompt (answer `confirmContinue`) fires before the swarm-project
checks. -/
def validate_project_location (s : ProjectInitializer) (w : World)
    (confirmContinue : Bool) : StepOut :=
  if entryExists w s.project_path && isFile w s.project_path then
    ⟨w, some (.osError ("NotADirectoryError: " ++ pathStr s.project_path))⟩
  else if entryExists w s.project_path && hasChildren w s.project_path
      && !s.force && !confirmContinue then
    ⟨w, some .abort⟩
  else if is_swarm_project w s.project_path then
    ⟨w, some (.projectExists
      ("Directory " ++ pathStr s.project_path ++ " is already a swarm project"))⟩
  else
    match find_parent_swarm_project w s.project_path with
    | some parent =>
      ⟨w, some (.projectExists
        ("Cannot create project inside existing swarm project at " ++ pathStr parent))⟩
    | none => write_probe s w

/-- The fixed directory list of `create_project_structure` (`init.py`,
lines 110-117), relative to the project path. -/
def structure_dirs (s : ProjectInitializer) : List Path :=
  [["agents"], ["infrastructure", s.provider.fmt], ["scripts"], ["config"], ["tests"],
   ["docs"]]

/-- The loop of `create_project_structure` (`init.py`, lines 119-121):
for each directory, `mkdir(parents=True, exist_ok=True)` then touch its
`.gitkeep` marker. -/
def createDirList (s : ProjectInitializer) (w : World) (ds : List Path) : StepOut :=
  match ds with
  | [] => ⟨w, none⟩
  | d :: rest =>
    (mkdirParents w (s.project_path ++ d)).andThen (fun w1 =>
      (touchAt w1 (s.project_path ++ d ++ [".gitkeep"])).andThen (fun w2 =>
        createDirList s w2 rest))

/-- The body of the `try` block of `create_project_structure`. -/
def create_dirs_raw (s : ProjectInitializer) (w : World) : StepOut :=
  createDirList s w (structure_dirs s)

/-- `ProjectInitializer.create_project_structure` (`init.py`,
lines 107-124): any exception of the loop is wrapped as
`ProjectInitError(f"Failed to create project structure: \x7bstr(e)\x7d")`. -/
def create_project_structure (s : ProjectInitializer) (w : World) : StepOut :=
  match (create_dirs_raw s w).err with
  | some e =>
    ⟨(create_dirs_raw s w).w,
      some (.projectInit ("Failed to create project structure: " ++ pyStr e))⟩
  | none => create_dirs_raw s w

/-- The nested mapping built by `generate_config` (`init.py`,
lines 128-145), in declaration order.  `self.template` and
`self.provider` are stored as the enum members themselves. -/
def generate_config_value (s : ProjectInitializer) : Yaml :=
  .map
    [("project", .map
        [("name", .str s.name),
         ("id", .str s.project_id),
         ("created_at", .str s.created_at),
         ("template", .enumMember s.template.pyRepr s.template.value)]),
     ("registry", .map
        [("url", match s.registry with | some u => .str u | none => .nullVal),
         ("type", .str "docker-registry")]),
     ("infrastructure", .map
        [("provider", .enumMember s.provider.pyRepr s.provider.value),
         ("region", .str "us-east-1")]),
     ("agents", .arr []),
     ("services", .map
        [("message_queue", .map [("type", .str "redis"), ("version", .str "7.0")]),
         ("monitoring", .map [("enabled", .bool true), ("type", .str "prometheus")])])]

/-- `yaml.representer.RepresenterError("cannot represent an object",
data)` as the uncaught exception it is to the initializer;
`str(e)` renders the argument tuple. -/
def representerError (objRepr : String) : PyError :=
  .osError ("(\x27cannot represent an object\x27, " ++ objRepr ++ ")")

/-- `ProjectInitializer.generate_config` (`init.py`, lines 126-148):
`open(..., "w")` creates/truncates `aiswarm.yaml`, then
`yaml.safe_dump(config, f, sort_keys=False)` builds the representation
node tree before emitting.  `SafeRepresenter` dispatches on the exact
type of each value and has no representer for subclasses of `str`, so
the `(str, Enum)` members stored at `project.template` and
`infrastructure.provider` reach `represent_undefined`, which raises
`RepresenterError` — always, since the fields are enum members by
construction.  The depth-first, insertion-ordered traversal of
`generate_config_value` reaches the template member first
(`project.name/id/created_at` are plain strings), so the error names
it; nothing is emitted and the file stays empty. -/
def generate_config (s : ProjectInitializer) (w : World) : StepOut :=
  (writeFileAt w (s.project_path ++ ["aiswarm.yaml"]) (.textData "")).andThen
    (fun w1 => ⟨w1, some (representerError s.template.pyRepr)⟩)

/-- Static content of `agents/example-agent/main.py` (`init.py`,
lines 156-183). -/
def example_agent_main : String :=
  "\nfrom fastapi import FastAPI, HTTPException\nfrom pydantic import BaseModel\nfrom typing import Dict, Any\n\napp = FastAPI()\n\nclass Task(BaseModel):\n    input: Any\n    parameters: Dict[str, Any] = \x7b\x7d\n\nclass Response(BaseModel):\n    status: str\n    result: Any\n\n@app.post(\"/execute\")\nasync def execute_task(task: Task) -> Response:\n    try:\n        # Add your agent logic here\n        result = task.input  # Echo input for example\n        return Response(status=\"success\", result=result)\n    except Exception as e:\n        raise HTTPException(status_code=500, detail=str(e))\n\n@app.get(\"/health\")\nasync def health_check():\n    return \x7b\"status\": \"healthy\"\x7d\n"

/-- Static content of `agents/example-agent/Dockerfile` (`init.py`,
lines 188-198). -/
def example_agent_dockerfile : String :=
  "\nFROM python:3.9-slim\n\nWORKDIR /app\nCOPY requirements.txt .\nRUN pip install --no-cache-dir -r requirements.txt\n\nCOPY . .\n\nCMD [\"uvicorn\", \"main:app\", \"--host\", \"0.0.0.0\", \"--port\", \"8000\"]\n"

/-- Static content of `agents/example-agent/requirements.txt`
(`init.py`, lines 203-209). -/
def example_agent_requirements : String :=
  "\nfastapi>=0.68.0\nuvicorn>=0.15.0\npydantic>=1.8.0\nredis>=4.0.0\nprometheus-client>=0.12.0\n"

/-- `ProjectInitializer.create_example_agent` (`init.py`,
lines 150-211): `mkdir(exist_ok=True)` for `agents/example-agent`, then
the three fixed-content scaffold files. -/
def create_example_agent (s : ProjectInitializer) (w : World) : StepOut :=
  let ap := s.project_path ++ ["agents", "example-agent"]
  (mkdirAt w ap).andThen (fun w1 =>
    (writeFileAt w1 (ap ++ ["main.py"]) (.textData example_agent_main)).andThen (fun w2 =>
      (writeFileAt w2 (ap ++ ["Dockerfile"]) (.textData example_agent_dockerfile)).andThen
        (fun w3 =>
          writeFileAt w3 (ap ++ ["requirements.txt"]) (.textData example_agent_requirements))))

/-- Static content of `docker-compose.yml` (`init.py`, lines 215-246). -/
def compose_content : String :=
  "\nversion: \x273.8\x27\n\nservices:\n  example-agent:\n    build: ./agents/example-agent\n    ports:\n      - \"8000:8000\"\n    environment:\n      - REDIS_URL=redis://redis:6379\n    depends_on:\n      - redis\n\n  redis:\n    image: redis:7\n    ports:\n      - \"6379:6379\"\n\n  prometheus:\n    image: prom/prometheus\n    ports:\n      - \"9090:9090\"\n    volumes:\n      - ./config/prometheus.yml:/etc/prometheus/prometheus.yml\n\n  grafana:\n    image: grafana/grafana\n    ports:\n      - \"3000:3000\"\n    depends_on:\n      - prometheus\n"

/-- `ProjectInitializer.create_docker_compose` (`init.py`,
lines 213-248). -/
def create_docker_compose (s : ProjectInitializer) (w : World) : StepOut :=
  writeFileAt w (s.project_path ++ ["docker-compose.yml"]) (.textData compose_content)

/-- Static content of `.gitignore` (`init.py`, lines 257-292). -/
def gitignore_content : String :=
  "\n# Python\n__pycache__/\n*.py[cod]\n*.so\n.Python\nenv/\nbuild/\ndevelop-eggs/\ndist/\ndownloads/\neggs/\n.eggs/\nlib/\nlib64/\nparts/\nsdist/\nvar/\n*.egg-info/\n.installed.cfg\n*.egg\n\n# Environment variables\n.env\n.env.local\n\n# IDE\n.idea/\n.vscode/\n*.swp\n*.swo\n\n# OS\n.DS_Store\nThumbs.db\n"

/-- The version-control collaborator environment: whether `import git`
succeeds, whether `git.Repo.init` succeeds, and the message of its
failure when it does not. -/
structure GitEnv where
  importOk : Bool
  repoInitOk : Bool
  initErrMsg : String

/-- `ProjectInitializer.init_git` (`init.py`, lines 250-299): every
failure is caught inside and turned into a `logger.warning`; the
`.git` administrative area is outside the modelled artifact tree.
Returns the world and the warnings logged. -/
def init_git (s : ProjectInitializer) (w : World) (g : GitEnv) : World × List String :=
  if !g.importOk then
    (w, ["GitPython not installed. Skipping git initialization."])
  else if !g.repoInitOk then
    (w, ["Failed to initialize git: " ++ g.initErrMsg])
  else
    ((writeFileAt w (s.project_path ++ [".gitignore"]) (.textData gitignore_content)).w,
      match (writeFileAt w (s.project_path ++ [".gitignore"]) (.textData gitignore_content)).err with
      | none => []
      | some e => ["Failed to initialize git: " ++ pyStr e])

/-- The visible outcome of `initialize()`: success; `typer.Exit(1)`
raised after the caught original error was printed; or a cleanup
exception propagating while the original error was only printed. -/
inductive InitResult where
  | ok
  | exit1 (original : PyError)
  | cleanupRaised (cleanupErr : PyError) (original : PyError)
  deriving DecidableEq

/-- The fatal error a failed run was reported with, if any. -/
def InitResult.originalErr : InitResult → Option PyError
  | .ok => none
  | .exit1 e => some e
  | .cleanupRaised _ e => some e

/-- Whether the run failed and the reported error was `ProjectExistsError`. -/
def InitResult.failedWithProjectExists : InitResult → Bool
  | .exit1 (.projectExists _) => true
  | .cleanupRaised _ (.projectExists _) => true
  | _ => false

/-- Full observable outcome of one `initialize()` call. -/
structure InitOutput where
  world : World
  warnings : List String
  errorsPrinted : List String
  result : InitResult

/-- The `except Exception` block of `initialize` (`init.py`,
lines 332-338): print `"❌ Error: " + str(e)`, then, when the project
path exists and the cleanup confirmation (answer `confirmCleanup`) is
accepted, `shutil.rmtree(self.project_path)` — whose own exception
propagates in place of the final `typer.Exit(1)`. -/
def handle_failure (s : ProjectInitializer) (w : World) (e : PyError)
    (confirmCleanup : Bool) : InitOutput :=
  if entryExists w s.project_path && confirmCleanup then
    ⟨(rmtreeOp w s.project_path).w, [], ["❌ Error: " ++ pyStr e],
      match (rmtreeOp w s.project_path).err with
      | none => .exit1 e
      | some ce => .cleanupRaised ce e⟩
  else ⟨w, [], ["❌ Error: " ++ pyStr e], .exit1 e⟩

/-- The fatal pipeline of the `try` block of `initialize` (`init.py`,
lines 304-317): validation, directory structure, configuration, example
agent, compose file.  A raised exception short-circuits and carries the
world at raise time. -/
def initCore (s : ProjectInitializer) (w : World) (confirmContinue : Bool) : StepOut :=
  (validate_project_location s w confirmContinue).andThen (fun w1 =>
    (create_project_structure s w1).andThen (fun w2 =>
      (generate_config s w2).andThen (fun w3 =>
        (create_example_agent s w3).andThen (fun w4 =>
          create_docker_compose s w4))))

/-- `ProjectInitializer.initialize` (`init.py`, lines 301-338): the
fatal pipeline, then the optional non-fatal git step, with the
`except Exception` handler around everything. -/
def initProject (s : ProjectInitializer) (w : World)
    (confirmContinue confirmCleanup : Bool) (g : GitEnv) : InitOutput :=
  match (initCore s w confirmContinue).err with
  | some e => handle_failure s (initCore s w confirmContinue).w e confirmCleanup
  | none =>
    if s.git_init then
      ⟨(init_git s (initCore s w confirmContinue).w g).1,
        (init_git s (initCore s w confirmContinue).w g).2, [], .ok⟩
    else ⟨(initCore s w confirmContinue).w, [], [], .ok⟩

/-- Every path entry the fatal pipeline (steps 2-5) may create or
overwrite inside the project directory, relative to it
(`create_project_structure`, `generate_config`, `create_example_agent`,
`create_docker_compose`). -/
def core_generated_rel_paths (s : ProjectInitializer) : List Path :=
  [["agents"], ["agents", ".gitkeep"],
   ["infrastructure"], ["infrastructure", s.provider.fmt],
   ["infrastructure", s.provider.fmt, ".gitkeep"],
   ["scripts"], ["scripts", ".gitkeep"],
   ["config"], ["config", ".gitkeep"],
   ["tests"], ["tests", ".gitkeep"],
   ["docs"], ["docs", ".gitkeep"],
   ["aiswarm.yaml"],
   ["agents", "example-agent"],
   ["agents", "example-agent", "main.py"],
   ["agents", "example-agent", "Dockerfile"],
   ["agents", "example-agent", "requirements.txt"],
   ["docker-compose.yml"]]

/-- Every path entry any step of the initializer may create or
overwrite inside the project directory, relative to it (the fatal
pipeline plus `init_git`'s `.gitignore`). -/
def generated_rel_paths (s : ProjectInitializer) : List Path :=
  core_generated_rel_paths s ++ [[".gitignore"]]

/-- The fatal-pipeline set as absolute paths. -/
def core_generated_paths (s : ProjectInitializer) : List Path :=
  (core_generated_rel_paths s).map (s.project_path ++ ·)

/-- The full set as absolute paths. -/
def generated_paths (s : ProjectInitializer) : List Path :=
  (generated_rel_paths s).map (s.project_path ++ ·)

/-- Reading back the structured document of a YAML file on disk. -/
def readYamlFile (w : World) (p : Path) : Option Yaml :=
  match findEntry w.entries p with
  | some (.file (.yamlData v)) => some v
  | _ => none

/-- Key lookup in a YAML mapping. -/
def Yaml.lookupKey : Yaml → String → Option Yaml
  | .map es, k =>
    match es.find? (fun e => decide (e.fst = k)) with
    | some e => some e.snd
    | none => none
  | _, _ => none

/-- The key order of a YAML mapping as serialized (`sort_keys=False`). -/
def Yaml.topKeys : Yaml → List String
  | .map es => es.map Prod.fst
  | _ => []

/-- The `infrastructure.provider` field of the manifest on disk. -/
def manifestProvider (w : World) (s : ProjectInitializer) : Option Yaml :=
  (readYamlFile w (s.project_path ++ ["aiswarm.yaml"])).bind (fun v =>
    (v.lookupKey "infrastructure").bind (fun i => i.lookupKey "provider"))

/-- Stub `build all` command (`build.py`, lines 6-13): flags are parsed,
the body is `pass` — no state change, exit code 0. -/
def build_all (tag : String) (push : Bool) (w : World) : World × Nat :=
  (w, 0)

/-- Stub `deploy` command (`build.py`, lines 20-27). -/
def deploy (env : String) (dry_run : Bool) (w : World) : World × Nat :=
  (w, 0)

/-- Stub `agent create` command (`build.py`, lines 34-41). -/
def create_agent (agentName : String) (tmpl : String) (w : World) : World × Nat :=
  (w, 0)

/-- Stub `agent list` command (`build.py`, lines 43-47). -/
def list_agents (w : World) : World × Nat :=
  (w, 0)

/-- Stub `registry login` command (`build.py`, lines 54-62). -/
def registry_login (url username password : String) (w : World) : World × Nat :=
  (w, 0)

/-! ### Helper lemmas about the filesystem model -/

theorem findEntry_filter_none {l : List (Path × EntryData)} {p : Path}
    (f : Path × EntryData → Bool) (h : findEntry l p = none) :
    findEntry (l.filter f) p = none := by
  induction l with
  | nil => rfl
  | cons e rest ih =>
    by_cases hp : e.fst = p
    · simp [findEntry, hp] at h
    · have h' : findEntry rest p = none := by simpa [findEntry, hp] using h
      by_cases hf : f e
      · simp [List.filter_cons, hf, findEntry, hp, ih h']
      · simp [List.filter_cons, hf, ih h']

theorem isFile_eq_false_of_isDir {w : World} {p : Path} (h : isDir w p = true) :
    isFile w p = false := by
  unfold isDir at h
  unfold isFile
  match hf : findEntry w.entries p with
  | some .dir => rfl
  | some (.file _) => simp [hf] at h
  | none => simp [hf] at h

theorem rmtreeOp_absent {w : World} {q p : Path} (h : findEntry w.entries p = none) :
    findEntry (rmtreeOp w q).w.entries p = none := by
  unfold rmtreeOp
  split
  · exact h
  · exact findEntry_filter_none _ h

theorem findEntry_filter_not_prefix (l : List (Path × EntryData)) (q : Path) :
    findEntry (l.filter fun e => !(decide (q <+: e.fst))) q = none := by
  induction l with
  | nil => rfl
  | cons e rest ih =>
    by_cases hq : q <+: e.fst
    · simp [List.filter_cons, hq, ih]
    · have hne : e.fst ≠ q := fun hc => hq (by rw [hc])
      simp [List.filter_cons, hq, findEntry, hne, ih]

theorem rmtreeOp_removes {w : World} {q : Path} (h : (rmtreeOp w q).err = none) :
    findEntry (rmtreeOp w q).w.entries q = none := by
  by_cases hc : (w.unwritable.any (fun q' => decide (q <+: q'))
      || memPath w.unwritable q.dropLast) = true
  · exfalso
    unfold rmtreeOp at h
    rw [if_pos hc] at h
    simp at h
  · unfold rmtreeOp
    rw [if_neg hc]
    exact findEntry_filter_not_prefix _ _

theorem handle_failure_originalErr (s : ProjectInitializer) (w : World) (e : PyError)
    (ck : Bool) : (handle_failure s w e ck).result.originalErr = some e := by
  unfold handle_failure
  split
  · cases hm : (rmtreeOp w s.project_path).err <;> simp [hm, InitResult.originalErr]
  · rfl

theorem handle_failure_errorsPrinted (s : ProjectInitializer) (w : World) (e : PyError)
    (ck : Bool) : (handle_failure s w e ck).errorsPrinted = ["❌ Error: " ++ pyStr e] := by
  unfold handle_failure
  split <;> rfl

theorem handle_failure_absent {s : ProjectInitializer} {w : World} {e : PyError}
    {ck : Bool} {p : Path} (h : findEntry w.entries p = none) :
    findEntry (handle_failure s w e ck).world.entries p = none := by
  unfold handle_failure
  split
  · exact rmtreeOp_absent h
  · exact h

theorem andThen_err_some {r : StepOut} {f : World → StepOut} {e : PyError}
    (h : r.err = some e) : r.andThen f = r := by
  simp [StepOut.andThen, h]

theorem validate_projectExists {s : ProjectInitializer} {w : World} {cc : Bool}
    (hswarm : is_swarm_project w s.project_path = true ∨
      (find_parent_swarm_project w s.project_path).isSome = true)
    (hprompt : entryExists w s.project_path = false ∨
      (isDir w s.project_path = true ∧
        (hasChildren w s.project_path = false ∨ s.force = true ∨ cc = true))) :
    ∃ m, validate_project_location s w cc = ⟨w, some (.projectExists m)⟩ := by
  have hfile : (entryExists w s.project_path && isFile w s.project_path) = false := by
    rcases hprompt with h | ⟨hd, _⟩
    · simp [h]
    · simp [isFile_eq_false_of_isDir hd]
  have habort : (entryExists w s.project_path && hasChildren w s.project_path
      && !s.force && !cc) = false := by
    rcases hprompt with h | ⟨hd, hc | hf | hcc⟩
    · simp [h]
    · simp [hc]
    · simp [hf]
    · simp [hcc]
  by_cases hs : is_swarm_project w s.project_path = true
  · refine ⟨"Directory " ++ pathStr s.project_path ++ " is already a swarm project", ?_⟩
    unfold validate_project_location
    rw [if_neg (by simp [hfile]), if_neg (by simp [habort]), if_pos hs]
  · rcases hswarm with hs' | hp
    · exact absurd hs' hs
    · obtain ⟨par, hpar⟩ := Option.isSome_iff_exists.mp hp
      refine ⟨"Cannot create project inside existing swarm project at " ++ pathStr par, ?_⟩
      unfold validate_project_location
      rw [if_neg (by simp [hfile]), if_neg (by simp [habort]), if_neg hs, hpar]

theorem entryExists_of_isDir {w : World} {p : Path} (h : isDir w p = true) :
    entryExists w p = true := by
  unfold isDir at h
  unfold entryExists
  match hf : findEntry w.entries p with
  | some .dir => rfl
  | some (.file _) => simp [hf] at h
  | none => simp [hf] at h

/-! ### Concrete scenarios used by the claim theorems -/

/-- The §8.4 request: `name="demo"`, `registry="reg.example.com"`,
`provider=aws` (uuid and timestamp fixed arbitrarily, git disabled). -/
def demoInit : ProjectInitializer :=
  { name := "demo", base_path := ["base"], registry := some "reg.example.com",
    provider := .AWS, template := .BASIC, git_init := false, force := false,
    project_id := "11111111-2222-3333-4444-555555555555",
    created_at := "2026-01-01T00:00:00" }

/-- A fresh location: only the root and the base directory exist. -/
def freshWorld : World :=
  { entries := [([], .dir), (["base"], .dir)], unwritable := [] }

/-- A fully available version-control collaborator. -/
def gitAllOk : GitEnv := ⟨true, true, ""⟩

/-- A world whose base directory holds an unrelated file. -/
def markerWorld : World :=
  { entries := [([], .dir), (["base"], .dir), (["base", "other.txt"], .file (.textData ""))],
    unwritable := [] }

/-! ### Claim theorems -/

/-- C1: `is_swarm_project(d)` is true iff at least one marker entry
(the `aiswarm.yaml` manifest, or an `agents` or `infrastructure` child)
exists under `d`, and it is a pure function of those directory
contents: any two worlds agreeing on the marker entries of `d` (in
particular, repeated calls on unchanged contents) yield the same
result. -/
theorem c1_swarm_predicate (w₁ w₂ : World) (d : Path)
    (h : ∀ i ∈ indicators, entryExists w₁ (d ++ [i]) = entryExists w₂ (d ++ [i])) :
    is_swarm_project w₁ d = is_swarm_project w₂ d ∧
    (is_swarm_project w₁ d = true ↔
      (entryExists w₁ (d ++ ["aiswarm.yaml"]) = true ∨
       entryExists w₁ (d ++ ["agents"]) = true ∨
       entryExists w₁ (d ++ ["infrastructure"]) = true)) := by
  have h1 := h "aiswarm.yaml" (by simp [indicators])
  have h2 := h "agents" (by simp [indicators])
  have h3 := h "infrastructure" (by simp [indicators])
  constructor
  · simp [is_swarm_project, indicators, h1, h2, h3]
  · simp [is_swarm_project, indicators, Bool.or_eq_true]

/-- Witness for C1 at two concrete worlds agreeing on the markers of
`["base"]`. -/
theorem c1_swarm_predicate_witness :
    (∀ i ∈ indicators,
      entryExists freshWorld (["base"] ++ [i]) = entryExists markerWorld (["base"] ++ [i])) ∧
    (is_swarm_project freshWorld ["base"] = is_swarm_project markerWorld ["base"] ∧
      (is_swarm_project freshWorld ["base"] = true ↔
        (entryExists freshWorld (["base"] ++ ["aiswarm.yaml"]) = true ∨
         entryExists freshWorld (["base"] ++ ["agents"]) = true ∨
         entryExists freshWorld (["base"] ++ ["infrastructure"]) = true))) :=
  ⟨by decide, c1_swarm_predicate freshWorld markerWorld ["base"] (by decide)⟩

/-- C3 (code bug): for the `demo`/`reg.example.com`/`aws` request into
a fresh location, `initialize()` never reaches the claimed success:
the mapping the code builds has the claimed declaration key order, but
`yaml.safe_dump` raises `RepresenterError` on the `(str, Enum)`
template member, so the run ends with `typer.Exit(1)` after the error
banner, the manifest file is left empty (no mapping to deserialize),
and only the artifacts of the steps before `generate_config` exist:
the directory structure is there, while the example-agent files and
`docker-compose.yml` are never written. -/
theorem c3_serialization_bug :
    (generate_config_value demoInit).topKeys =
      ["project", "registry", "infrastructure", "agents", "services"] ∧
    (initProject demoInit freshWorld false false gitAllOk).result =
      .exit1 (representerError ProjectTemplate.BASIC.pyRepr) ∧
    (initProject demoInit freshWorld false false gitAllOk).result ≠ .ok ∧
    findEntry (initProject demoInit freshWorld false false gitAllOk).world.entries
      (demoInit.project_path ++ ["aiswarm.yaml"]) = some (.file (.textData "")) ∧
    readYamlFile (initProject demoInit freshWorld false false gitAllOk).world
      (demoInit.project_path ++ ["aiswarm.yaml"]) = none ∧
    isDir (initProject demoInit freshWorld false false gitAllOk).world
      (demoInit.project_path ++ ["agents"]) = true ∧
    isDir (initProject demoInit freshWorld false false gitAllOk).world
      (demoInit.project_path ++ ["infrastructure", "aws"]) = true ∧
    findEntry (initProject demoInit freshWorld false false gitAllOk).world.entries
      (demoInit.project_path ++ ["agents", "example-agent", "main.py"]) = none ∧
    findEntry (initProject demoInit freshWorld false false gitAllOk).world.entries
      (demoInit.project_path ++ ["docker-compose.yml"]) = none := by
  refine ⟨?_, ?_, ?_, ?_, ?_, ?_, ?_, ?_, ?_⟩
  · rfl
  · rfl
  · decide
  · rfl
  · rfl
  · rfl
  · rfl
  · rfl
  · rfl

/-- The C6 request parameterized over the provider member. -/
def providerInit (prov : CloudProvider) : ProjectInitializer :=
  { demoInit with provider := prov }

/-- C6 (code bug): for each `CloudProvider` member, the
`infrastructure/<provider>` directory is created with the member's
string value as its name (the structure step precedes configuration),
but the run then dies in `generate_config` with `RepresenterError` on
the enum members, so no run succeeds and no manifest with an
`infrastructure.provider` field is ever written. -/
theorem c6_provider_serialization_bug (prov : CloudProvider) :
    isDir (initProject (providerInit prov) freshWorld false false gitAllOk).world
      ((providerInit prov).project_path ++ ["infrastructure", prov.fmt]) = true ∧
    (initProject (providerInit prov) freshWorld false false gitAllOk).result =
      .exit1 (representerError ProjectTemplate.BASIC.pyRepr) ∧
    (initProject (providerInit prov) freshWorld false false gitAllOk).result ≠ .ok ∧
    readYamlFile (initProject (providerInit prov) freshWorld false false gitAllOk).world
      ((providerInit prov).project_path ++ ["aiswarm.yaml"]) = none ∧
    manifestProvider (initProject (providerInit prov) freshWorld false false gitAllOk).world
      (providerInit prov) = none := by
  cases prov <;> exact ⟨by rfl, by rfl, by decide, by rfl, by rfl⟩

/-- C9: each stub command (`build all`, `deploy`, `agent create`,
`agent list`, `registry login`) accepts its declared flags, exits with
code 0, and leaves the world unchanged. -/
theorem c9_stub_commands_no_side_effects :
    (∀ (tag : String) (push : Bool) (w : World), build_all tag push w = (w, 0)) ∧
    (∀ (env : String) (dryRun : Bool) (w : World), deploy env dryRun w = (w, 0)) ∧
    (∀ (nm tmpl : String) (w : World), create_agent nm tmpl w = (w, 0)) ∧
    (∀ w : World, list_agents w = (w, 0)) ∧
    (∀ (url user pass : String) (w : World), registry_login url user pass w = (w, 0)) :=
  ⟨fun _ _ _ => rfl, fun _ _ _ => rfl, fun _ _ _ => rfl, fun _ => rfl, fun _ _ _ _ => rfl⟩

/-- A parent swarm project `/home` (its `aiswarm.yaml` manifest exists)
whose subdirectory `/home/child` exists and is non-empty. -/
def c2World : World :=
  { entries := [([], .dir), (["home"], .dir),
      (["home", "aiswarm.yaml"], .file (.textData "")),
      (["home", "child"], .dir),
      (["home", "child", "junk.txt"], .file (.textData ""))],
    unwritable := [] }

/-- The request targeting `/home/child` (no `--force`). -/
def c2Init : ProjectInitializer :=
  { demoInit with name := "child", base_path := ["home"] }

/-- C2 counterexample: an ancestor of the target is a swarm project,
yet with the target existing non-empty, `force` false, and the
overwrite confirmation declined, `initialize` fails with the
user-cancellation signal `typer.Abort` — raised by the overwrite prompt
before the swarm-project checks run — and not with
`ProjectExistsError`. -/
theorem c2_counterexample :
    (find_parent_swarm_project c2World c2Init.project_path).isSome = true ∧
    (initProject c2Init c2World false false gitAllOk).result = .exit1 .abort ∧
    (initProject c2Init c2World false false gitAllOk).result.failedWithProjectExists
      = false := by
  refine ⟨?_, ?_, ?_⟩ <;> rfl

/-- C2 (amended): when the target or a non-root ancestor satisfies the
swarm-project predicate and the overwrite prompt does not intervene
first (the target is absent, or is a directory that is empty, or
`force` is set, or the confirmation is accepted), `initialize` fails
with `ProjectExistsError` as the reported error (re-raised as the
generic exit signal, or replaced by the cleanup exception if cleanup
fails), and nothing is created anywhere: every path absent before is
absent after. -/
theorem c2_no_nesting_amended (s : ProjectInitializer) (w : World) (cc ck : Bool)
    (g : GitEnv)
    (hswarm : is_swarm_project w s.project_path = true ∨
      (find_parent_swarm_project w s.project_path).isSome = true)
    (hprompt : entryExists w s.project_path = false ∨
      (isDir w s.project_path = true ∧
        (hasChildren w s.project_path = false ∨ s.force = true ∨ cc = true))) :
    (∃ m, (initProject s w cc ck g).result.originalErr = some (.projectExists m)) ∧
    ∀ p : Path, findEntry w.entries p = none →
      findEntry (initProject s w cc ck g).world.entries p = none := by
  obtain ⟨m, hval⟩ := validate_projectExists hswarm hprompt
  have hcore : initCore s w cc = ⟨w, some (.projectExists m)⟩ := by
    unfold initCore
    rw [hval]
    exact andThen_err_some rfl
  have herr : (initCore s w cc).err = some (.projectExists m) := by rw [hcore]
  have hw : (initCore s w cc).w = w := by rw [hcore]
  constructor
  · refine ⟨m, ?_⟩
    unfold initProject
    rw [herr, hw]
    exact handle_failure_originalErr s w _ ck
  · intro p hp
    unfold initProject
    rw [herr, hw]
    exact handle_failure_absent hp

/-- A parent swarm project `/home` with the target `/home/child`
absent. -/
def c2AbsentWorld : World :=
  { entries := [([], .dir), (["home"], .dir),
      (["home", "aiswarm.yaml"], .file (.textData ""))],
    unwritable := [] }

/-- Witness for the amended C2: nesting under `/home` with the target
absent is rejected with `ProjectExistsError` and creates nothing. -/
theorem c2_no_nesting_amended_witness :
    ((is_swarm_project c2AbsentWorld c2Init.project_path = true ∨
        (find_parent_swarm_project c2AbsentWorld c2Init.project_path).isSome = true) ∧
      (entryExists c2AbsentWorld c2Init.project_path = false ∨
        (isDir c2AbsentWorld c2Init.project_path = true ∧
          (hasChildren c2AbsentWorld c2Init.project_path = false ∨
            c2Init.force = true ∨ false = true)))) ∧
    ((∃ m, (initProject c2Init c2AbsentWorld false true gitAllOk).result.originalErr =
        some (.projectExists m)) ∧
      ∀ p : Path, findEntry c2AbsentWorld.entries p = none →
        findEntry (initProject c2Init c2AbsentWorld false true gitAllOk).world.entries p
          = none) :=
  ⟨⟨by decide, by decide⟩,
    c2_no_nesting_amended c2Init c2AbsentWorld false true gitAllOk (by decide) (by decide)⟩

/-- An existing swarm project at the target `/base/demo` whose
directory is unwritable, so `shutil.rmtree` fails during cleanup. -/
def c4World : World :=
  { entries := [([], .dir), (["base"], .dir), (["base", "demo"], .dir),
      (["base", "demo", "aiswarm.yaml"], .file (.textData ""))],
    unwritable := [["base", "demo"]] }

/-- The C4/C10 request: same as `demoInit` but with `--force`. -/
def forceInit : ProjectInitializer := { demoInit with force := true }

/-- C4 counterexample: initialization fails with `ProjectExistsError`,
the user accepts the cleanup prompt, and `shutil.rmtree` itself raises
`PermissionError`; the cleanup exception then propagates in place of
the re-raised signal — the cleanup failure replaces the original error
as the exception leaving `initialize`, contradicting the claim that a
cleanup failure never masks or replaces the original error. -/
theorem c4_counterexample :
    (initProject forceInit c4World true true gitAllOk).result =
      .cleanupRaised .permissionError
        (.projectExists "Directory /base/demo is already a swarm project") := by
  rfl

/-- C4 (amended): on a fatal failure `e`, `initialize` prints the
original error and, when the project path exists, prompts whether to
remove it recursively.  If the path is absent or the removal is
declined, the run ends with `typer.Exit(1)` (the original error only
printed, not re-raised) and the world is untouched by the handler; if
the removal is accepted and succeeds, the run ends with `typer.Exit(1)`
and the project path is gone; but if the removal itself fails, the
removal exception propagates in place of the exit signal and the
original error survives only in the printed output. -/
theorem c4_cleanup_amended (s : ProjectInitializer) (w : World) (e : PyError)
    (ck : Bool) :
    (handle_failure s w e ck).errorsPrinted = ["❌ Error: " ++ pyStr e] ∧
    (handle_failure s w e ck).result.originalErr = some e ∧
    ((entryExists w s.project_path && ck) = false →
      (handle_failure s w e ck).result = .exit1 e ∧
      (handle_failure s w e ck).world = w) ∧
    ((entryExists w s.project_path && ck) = true →
      ((rmtreeOp w s.project_path).err = none →
        (handle_failure s w e ck).result = .exit1 e ∧
        entryExists (handle_failure s w e ck).world s.project_path = false) ∧
      (∀ ce, (rmtreeOp w s.project_path).err = some ce →
        (handle_failure s w e ck).result = .cleanupRaised ce e)) := by
  refine ⟨handle_failure_errorsPrinted s w e ck,
    handle_failure_originalErr s w e ck, ?_, ?_⟩
  · intro hc
    unfold handle_failure
    rw [if_neg (by simp [hc])]
    exact ⟨rfl, rfl⟩
  · intro hc
    constructor
    · intro hnone
      unfold handle_failure
      rw [if_pos hc]
      constructor
      · simp [hnone]
      · show (findEntry (rmtreeOp w s.project_path).w.entries s.project_path).isSome
          = false
        rw [rmtreeOp_removes hnone]
        rfl
    · intro ce hce
      unfold handle_failure
      rw [if_pos hc]
      simp [hce]

/-- Witness for the amended C4, applying it on the unwritable-project
scenario in both the accepted- and declined-cleanup cases: the original
error is always printed; with cleanup accepted the failing removal
raises in its place; with cleanup declined the run exits 1 with the
world untouched. -/
theorem c4_cleanup_amended_witness :
    (handle_failure forceInit c4World (.osError "boom") true).errorsPrinted =
      ["❌ Error: " ++ pyStr (.osError "boom")] ∧
    (handle_failure forceInit c4World (.osError "boom") true).result =
      .cleanupRaised .permissionError (.osError "boom") ∧
    (handle_failure forceInit c4World (.osError "boom") false).result =
      .exit1 (.osError "boom") ∧
    (handle_failure forceInit c4World (.osError "boom") false).world = c4World :=
  ⟨(c4_cleanup_amended forceInit c4World (.osError "boom") true).1,
    ((c4_cleanup_amended forceInit c4World (.osError "boom") true).2.2.2
      (by decide)).2 .permissionError (by decide),
    ((c4_cleanup_amended forceInit c4World (.osError "boom") false).2.2.1
      (by decide)).1,
    ((c4_cleanup_amended forceInit c4World (.osError "boom") false).2.2.1
      (by decide)).2⟩

/-- A non-empty directory at the target `/base/demo` that is not a
swarm project. -/
def c5World : World :=
  { entries := [([], .dir), (["base"], .dir), (["base", "demo"], .dir),
      (["base", "demo", "notes.txt"], .file (.textData ""))],
    unwritable := [] }

/-- C5 counterexample: with the target non-empty and non-project,
`force` false and the confirmation declined, the raised `typer.Abort`
is caught by the generic failure handler, which prints an error banner
for it — the cancellation is logged as an error rather than exiting
silently, contradicting that part of the claim. -/
theorem c5_counterexample :
    is_swarm_project c5World demoInit.project_path = false ∧
    (initProject demoInit c5World false false gitAllOk).errorsPrinted = ["❌ Error: "] ∧
    (initProject demoInit c5World false false gitAllOk).result = .exit1 .abort := by
  refine ⟨?_, ?_, ?_⟩ <;> rfl

/-- C5 (amended): declining the confirmation for an existing non-empty
directory aborts with the user-cancellation signal `typer.Abort`
(distinct from the `SwarmError` kinds) and exits non-zero, and none of
the fixed subdirectories (nor anything else) is created; however the
abort is routed through the generic failure handler, which prints an
error banner (with empty message) for it and offers cleanup. -/
theorem c5_cancel_amended (s : ProjectInitializer) (w : World) (ck : Bool) (g : GitEnv)
    (hdir : isDir w s.project_path = true)
    (hch : hasChildren w s.project_path = true)
    (hforce : s.force = false) :
    (initProject s w false ck g).result.originalErr = some .abort ∧
    (initProject s w false ck g).errorsPrinted = ["❌ Error: " ++ pyStr .abort] ∧
    ∀ p : Path, findEntry w.entries p = none →
      findEntry (initProject s w false ck g).world.entries p = none := by
  have hex : entryExists w s.project_path = true := entryExists_of_isDir hdir
  have hval : validate_project_location s w false = ⟨w, some .abort⟩ := by
    unfold validate_project_location
    rw [if_neg (by simp [isFile_eq_false_of_isDir hdir]),
      if_pos (by simp [hex, hch, hforce])]
  have hcore : initCore s w false = ⟨w, some .abort⟩ := by
    unfold initCore
    rw [hval]
    exact andThen_err_some rfl
  have herr : (initCore s w false).err = some .abort := by rw [hcore]
  have hw : (initCore s w false).w = w := by rw [hcore]
  refine ⟨?_, ?_, ?_⟩
  · unfold initProject
    rw [herr, hw]
    exact handle_failure_originalErr s w _ ck
  · unfold initProject
    rw [herr, hw]
    exact handle_failure_errorsPrinted s w _ ck
  · intro p hp
    unfold initProject
    rw [herr, hw]
    exact handle_failure_absent hp

/-- Witness for the amended C5 on the non-empty non-project target with
the confirmation declined. -/
theorem c5_cancel_amended_witness :
    (isDir c5World demoInit.project_path = true ∧
      hasChildren c5World demoInit.project_path = true ∧
      demoInit.force = false) ∧
    ((initProject demoInit c5World false false gitAllOk).result.originalErr =
        some .abort ∧
      (initProject demoInit c5World false false gitAllOk).errorsPrinted =
        ["❌ Error: " ++ pyStr .abort] ∧
      ∀ p : Path, findEntry c5World.entries p = none →
        findEntry (initProject demoInit c5World false false gitAllOk).world.entries p
          = none) :=
  ⟨⟨by decide, by decide, rfl⟩,
    c5_cancel_amended demoInit c5World false gitAllOk (by decide) (by decide) rfl⟩

/-- The C7 request: git initialization enabled. -/
def gitInitDemo : ProjectInitializer := { demoInit with git_init := true }

/-- A collaborator environment in which `import git` fails. -/
def gitUnavailable : GitEnv := ⟨false, true, ""⟩

/-- C7 (code bug): with `gitInit` true and the collaborator
unavailable, `initialize()` does not return success: the fatal pipeline
always dies in `generate_config` with `RepresenterError` before the git
step runs, so the run exits 1, no git warning is ever logged, and
`.gitignore` is absent only because nothing after `generate_config`
exists at all; the outcome is identical when the collaborator is fully
available, showing the failure has nothing to do with git. -/
theorem c7_git_unreachable_bug :
    (initProject gitInitDemo freshWorld false false gitUnavailable).result =
      .exit1 (representerError ProjectTemplate.BASIC.pyRepr) ∧
    (initProject gitInitDemo freshWorld false false gitUnavailable).result ≠ .ok ∧
    (initProject gitInitDemo freshWorld false false gitUnavailable).warnings = [] ∧
    findEntry (initProject gitInitDemo freshWorld false false gitUnavailable).world.entries
      (gitInitDemo.project_path ++ [".gitignore"]) = none ∧
    (initProject gitInitDemo freshWorld false false gitAllOk).result =
      .exit1 (representerError ProjectTemplate.BASIC.pyRepr) := by
  refine ⟨?_, ?_, ?_, ?_, ?_⟩
  · rfl
  · decide
  · rfl
  · rfl
  · rfl

/-- C8: a `PermissionError` anywhere in the write probe of location
validation is translated to `ProjectInitError` (a constructor distinct
from `ProjectExistsError`), and every filesystem error of the
directory-structure loop is wrapped as `ProjectInitError` whose message
carries the original cause's text — never swallowed. -/
theorem c8_error_translation :
    (∀ (s : ProjectInitializer) (w : World),
      (probe_raw s w).err = some .permissionError →
        (write_probe s w).err = some (.projectInit
          ("No write permission in directory " ++ pathStr s.project_path))) ∧
    (∀ m m' : String, PyError.projectInit m ≠ PyError.projectExists m') ∧
    (∀ (s : ProjectInitializer) (w : World) (e : PyError),
      (create_dirs_raw s w).err = some e →
        (create_project_structure s w).err = some (.projectInit
          ("Failed to create project structure: " ++ pyStr e))) := by
  refine ⟨?_, ?_, ?_⟩
  · intro s w h
    unfold write_probe
    rw [h]
  · intro m m' h
    exact PyError.noConfusion h
  · intro s w e h
    unfold create_project_structure
    rw [h]

/-- A base directory in which the target itself is unwritable, so the
probe's `touch` raises `PermissionError`. -/
def c8ProbeWorld : World :=
  { entries := [([], .dir), (["b"], .dir)], unwritable := [["b", "x"]] }

/-- The request targeting `/b/x`. -/
def c8Init : ProjectInitializer := { demoInit with name := "x", base_path := ["b"] }

/-- An existing empty target whose `agents` subdirectory, once created,
is unwritable — the `.gitkeep` touch of the structure loop fails. -/
def c8StructWorld : World :=
  { entries := [([], .dir), (["b"], .dir), (["b", "x"], .dir)],
    unwritable := [["b", "x", "agents"]] }

/-- Witness for C8 on both failure scenarios. -/
theorem c8_error_translation_witness :
    (write_probe c8Init c8ProbeWorld).err = some (.projectInit
      ("No write permission in directory " ++ pathStr c8Init.project_path)) ∧
    (create_project_structure c8Init c8StructWorld).err = some (.projectInit
      ("Failed to create project structure: " ++ pyStr .permissionError)) :=
  ⟨c8_error_translation.1 c8Init c8ProbeWorld (by decide),
    c8_error_translation.2.2 c8Init c8StructWorld .permissionError (by decide)⟩

/-- An existing non-empty, non-project target `/base/demo` holding a
pre-existing regular file named `.write_test`. -/
def c10World : World :=
  { entries := [([], .dir), (["base"], .dir), (["base", "demo"], .dir),
      (["base", "demo", ".write_test"], .file (.textData "keep"))],
    unwritable := [] }

/-- C10 (code bug): with `force` set on this non-empty non-project
directory, no successful `initialize` exists — the run dies in
`generate_config` with `RepresenterError` and exits 1 — so the claimed
scenario is unrealizable; moreover the attempted run has already
deleted the pre-existing regular file `.write_test`, whose name is not
among the fixed generated names, through the write probe of
`validate_project_location`, so the preservation the claim intends is
violated even by the steps that do execute. -/
theorem c10_probe_deletes_and_fails :
    entryExists c10World forceInit.project_path = true ∧
    hasChildren c10World forceInit.project_path = true ∧
    is_swarm_project c10World forceInit.project_path = false ∧
    (findEntry c10World.entries (forceInit.project_path ++ [".write_test"])).isSome
      = true ∧
    (forceInit.project_path ++ [".write_test"]) ∉ generated_paths forceInit ∧
    (initProject forceInit c10World false false gitAllOk).result =
      .exit1 (representerError ProjectTemplate.BASIC.pyRepr) ∧
    (initProject forceInit c10World false false gitAllOk).result ≠ .ok ∧
    findEntry (initProject forceInit c10World false false gitAllOk).world.entries
      (forceInit.project_path ++ [".write_test"]) = none := by
  refine ⟨?_, ?_, ?_, ?_, ?_, ?_, ?_, ?_⟩
  · rfl
  · rfl
  · rfl
  · rfl
  · decide
  · rfl
  · decide
  · rfl

end SwarmCloud
